import Mathlib

/-!
Shallow embedding of `mysql/connector/conversion.py` (MySQL Connector/Python
value codec).  Python 2 byte strings and unicode strings are both modelled as
`List Char`; Python `int`/`long` are modelled as `Int`; exceptions are
modelled with an explicit error type and `Except`.
-/

set_option maxRecDepth 4096

deriving instance DecidableEq for Except

/-- Python exception values that the codec can produce. -/
inductive PyErr where
  | valueError (msg : List Char)
  | typeError (msg : List Char)
  | indexError
  | keyError
  | structError
  deriving DecidableEq, Repr

/-- Characters Python `int()` strips from both ends of its argument. -/
def isPySpace (c : Char) : Bool :=
  [' ', '\t', '\n', '\r', '\x0b', '\x0c'].contains c

/-- ASCII decimal digit test (the range accepted by Python `int()`). -/
def isDigitCh (c : Char) : Bool :=
  48 ≤ c.toNat && c.toNat ≤ 57

/-- Numeric value of an ASCII digit character. -/
def digitVal (c : Char) : Nat := c.toNat - 48

/-- The decimal digit character for a value below ten. -/
def digitCharOf : Nat → Char
  | 0 => '0' | 1 => '1' | 2 => '2' | 3 => '3' | 4 => '4'
  | 5 => '5' | 6 => '6' | 7 => '7' | 8 => '8' | 9 => '9'
  | _ => '?'

/-- Fuel-driven digit expansion; any fuel at least the number itself is
enough, and the structural recursion keeps kernel reduction available. -/
def natToDigitsAux : Nat → Nat → List Char
  | 0, n => [digitCharOf n]
  | fuel + 1, n =>
    if n < 10 then [digitCharOf n]
    else natToDigitsAux fuel (n / 10) ++ [digitCharOf (n % 10)]

/-- Decimal digits of a natural number, most significant first
(Python `str` of a non-negative int). -/
def natToDigits (n : Nat) : List Char := natToDigitsAux n n

/-- Python `str` of an int: optional minus sign followed by digits. -/
def intRepr (i : Int) : List Char :=
  if i < 0 then '-' :: natToDigits i.natAbs else natToDigits i.toNat

/-- Value of a list of decimal digit characters (most significant first). -/
def parseDigits (l : List Char) : Nat :=
  l.foldl (fun a c => a * 10 + digitVal c) 0

/-- Strip Python-`int()` whitespace from both ends. -/
def stripWs (l : List Char) : List Char :=
  ((l.dropWhile isPySpace).reverse.dropWhile isPySpace).reverse

/-- All characters are ASCII digits and the list is non-empty. -/
def digitsOk (l : List Char) : Bool :=
  !l.isEmpty && l.all isDigitCh

/-- Error message of Python `int()` on a bad literal. -/
def intErrMsg (s : List Char) : List Char :=
  ("invalid literal for int() with base 10: ").toList ++ '\'' :: (s ++ ['\''])

/-- Core of Python `int()` on an already-stripped argument. -/
def pyIntCore (orig t : List Char) : Except PyErr Int :=
  match t with
  | [] => .error (.valueError (intErrMsg orig))
  | c :: r =>
    if c = '-' then
      if digitsOk r then .ok (-(parseDigits r : Int))
      else .error (.valueError (intErrMsg orig))
    else if c = '+' then
      if digitsOk r then .ok ((parseDigits r : Int))
      else .error (.valueError (intErrMsg orig))
    else if digitsOk (c :: r) then .ok ((parseDigits (c :: r) : Int))
    else .error (.valueError (intErrMsg orig))

/-- Python `int()` applied to a (byte or unicode) string. -/
def pyInt (s : List Char) : Except PyErr Int :=
  pyIntCore s (stripWs s)

/-- Python `str.split(sep)` for a one-character separator. -/
def splitOnChar (sep : Char) : List Char → List (List Char)
  | [] => [[]]
  | c :: rest =>
    let r := splitOnChar sep rest
    if c = sep then [] :: r
    else
      match r with
      | h :: t => (c :: h) :: t
      | [] => [[c]]

/-- Python `str.replace(old, new)` for a one-character pattern. -/
def replace1 (old : Char) (new : List Char) : List Char → List Char
  | [] => []
  | c :: rest => (if c = old then new else [c]) ++ replace1 old new rest

/-- Left-pad with zeros to the given width (Python `"%0Nd"` on a
non-negative value). -/
def padLeftZeros (w : Nat) (l : List Char) : List Char :=
  List.replicate (w - l.length) '0' ++ l

/-- Python `"%02d"` of a natural number. -/
def pad2 (n : Nat) : List Char := padLeftZeros 2 (natToDigits n)

/-- Python `"%06d"` of a natural number. -/
def pad6 (n : Nat) : List Char := padLeftZeros 6 (natToDigits n)

/-- Python `"{0:02d}"` of an int (sign counts toward the width). -/
def fmtInt2 (i : Int) : List Char :=
  if i < 0 then '-' :: padLeftZeros 1 (natToDigits i.natAbs)
  else padLeftZeros 2 (natToDigits i.toNat)

/-- Python `"{3:06d}"` of an int (sign counts toward the width). -/
def fmtInt6 (i : Int) : List Char :=
  if i < 0 then '-' :: padLeftZeros 5 (natToDigits i.natAbs)
  else padLeftZeros 6 (natToDigits i.toNat)

/-- Python `str.ljust(w, fill)`. -/
def ljust (l : List Char) (w : Nat) (fill : Char) : List Char :=
  l ++ List.replicate (w - l.length) fill

/-- Python sequence indexing: `l[i]`, raising `IndexError` out of range. -/
def pyIndex {α : Type} (l : List α) (i : Nat) : Except PyErr α :=
  if h : i < l.length then .ok (l.get ⟨i, h⟩) else .error .indexError

/-- Tuple unpacking `(a, b) = l` of a Python list. -/
def unpack2 {α : Type} (l : List α) : Except PyErr (α × α) :=
  match l with
  | [a, b] => .ok (a, b)
  | _ => .error (.valueError (("unpacking requires two values").toList))

/-- Tuple unpacking `(a, b, c) = l` of a Python list. -/
def unpack3 {α : Type} (l : List α) : Except PyErr (α × α × α) :=
  match l with
  | [a, b, c] => .ok (a, b, c)
  | _ => .error (.valueError (("unpacking requires three values").toList))

/-- `[int(d) for d in parts]`: left-to-right, first failure propagates. -/
def mapPyInt : List (List Char) → Except PyErr (List Int)
  | [] => .ok []
  | x :: xs =>
    match pyInt x with
    | .error e => .error e
    | .ok n =>
      match mapPyInt xs with
      | .error e => .error e
      | .ok l => .ok (n :: l)

/-- `try: ... except ValueError: fallback`. -/
def catchValueError {α : Type} (r : Except PyErr α) (fallback : Except PyErr α) :
    Except PyErr α :=
  match r with
  | .error (.valueError _) => fallback
  | x => x

/-! ## Data model -/

/-- `HexLiteral` (source `conversion.py` lines 35-46): a string subclass whose
text is the concatenation of `"{0:x}".format(ord(i))` for each byte `i` of the
charset-encoded original, with the charset name and the original attached. -/
structure HexLiteral where
  digits : List Char
  original : List Char
  charset : List Char
  deriving DecidableEq, Repr

/-- `"{0:x}".format b`: lowercase hexadecimal digits of a byte, with no
zero padding. -/
def hexFormatByte (b : Nat) : List Char :=
  if b < 16 then [Nat.digitChar b]
  else [Nat.digitChar (b / 16), Nat.digitChar (b % 16)]

/-- `HexLiteral.__new__`: hex-encode the bytes of `str_.encode(charset)`.
The charset codec itself lives outside `src/` (Python's codec machinery), so
it is passed in as the function `enc`. -/
def HexLiteral.new (enc : List Char → List Char) (str_ : List Char)
    (charsetName : List Char) : HexLiteral :=
  { digits := ((enc str_).map (fun c => hexFormatByte c.toNat)).flatten
    original := str_
    charset := charsetName }

/-- `HexLiteral.__str__`: the digits with a leading `0x`. -/
def HexLiteral.render (h : HexLiteral) : List Char :=
  '0' :: 'x' :: h.digits

/-- The runtime variants exchanged with the codec.  Python 2 `str` (bytes)
and `unicode` are both sequences of characters; `float` is represented by
its `repr` text (float formatting itself is outside the embedding). -/
inductive PyValue where
  | none
  | bool (b : Bool)
  | int (n : Int)
  | long (n : Int)
  | float (r : List Char)
  | decimal (r : List Char)
  | str (s : List Char)
  | unicode (s : List Char)
  | hexLiteral (h : HexLiteral)
  | date (y m d : Nat)
  | time (h mi s mcs : Nat)
  | datetime (y mo d h mi s mcs : Nat)
  | timedelta (days : Int) (seconds mcs : Nat)
  | set (elems : List (List Char))
  deriving DecidableEq, Repr

/-- State of a `MySQLConverter` (`charset`, `charset_id`, `use_unicode`),
together with the pieces of the charset-table collaborator the codec
consumes.  Modelled from the spec: `slashCharsets` stands for
`CharacterSet.slash_charsets`, `encode` for `value.encode(self.charset)`
and `decode` for `unicode(value, self.charset)` — the `constants` module and
Python's codec machinery are not under `src/`. -/
structure Converter where
  charset : List Char
  charsetId : Nat
  useUnicode : Bool
  slashCharsets : List Nat
  encode : List Char → List Char
  decode : List Char → Except PyErr (List Char)

/-!
The numeric type codes of the field-type registry collaborator (`FieldType`
in the `constants` module, which is not under `src/`) are modelled from the
spec as the MySQL protocol column-type codes, one abbreviation each.
-/

/-- Modelled from the spec: `FieldType` numeric code. -/
abbrev FieldType.DECIMAL : Nat := 0

/-- Modelled from the spec: `FieldType` numeric code. -/
abbrev FieldType.TINY : Nat := 1

/-- Modelled from the spec: `FieldType` numeric code. -/
abbrev FieldType.SHORT : Nat := 2

/-- Modelled from the spec: `FieldType` numeric code. -/
abbrev FieldType.LONG : Nat := 3

/-- Modelled from the spec: `FieldType` numeric code. -/
abbrev FieldType.FLOAT : Nat := 4

/-- Modelled from the spec: `FieldType` numeric code. -/
abbrev FieldType.DOUBLE : Nat := 5

/-- Modelled from the spec: `FieldType` numeric code. -/
abbrev FieldType.NULL : Nat := 6

/-- Modelled from the spec: `FieldType` numeric code. -/
abbrev FieldType.TIMESTAMP : Nat := 7

/-- Modelled from the spec: `FieldType` numeric code. -/
abbrev FieldType.LONGLONG : Nat := 8

/-- Modelled from the spec: `FieldType` numeric code. -/
abbrev FieldType.INT24 : Nat := 9

/-- Modelled from the spec: `FieldType` numeric code. -/
abbrev FieldType.DATE : Nat := 10

/-- Modelled from the spec: `FieldType` numeric code. -/
abbrev FieldType.TIME : Nat := 11

/-- Modelled from the spec: `FieldType` numeric code. -/
abbrev FieldType.DATETIME : Nat := 12

/-- Modelled from the spec: `FieldType` numeric code. -/
abbrev FieldType.YEAR : Nat := 13

/-- Modelled from the spec: `FieldType` numeric code. -/
abbrev FieldType.NEWDATE : Nat := 14

/-- Modelled from the spec: `FieldType` numeric code. -/
abbrev FieldType.VARCHAR : Nat := 15

/-- Modelled from the spec: `FieldType` numeric code. -/
abbrev FieldType.BIT : Nat := 16

/-- Modelled from the spec: `FieldType` numeric code. -/
abbrev FieldType.NEWDECIMAL : Nat := 246

/-- Modelled from the spec: `FieldType` numeric code. -/
abbrev FieldType.ENUM : Nat := 247

/-- Modelled from the spec: `FieldType` numeric code. -/
abbrev FieldType.SET : Nat := 248

/-- Modelled from the spec: `FieldType` numeric code. -/
abbrev FieldType.TINY_BLOB : Nat := 249

/-- Modelled from the spec: `FieldType` numeric code. -/
abbrev FieldType.MEDIUM_BLOB : Nat := 250

/-- Modelled from the spec: `FieldType` numeric code. -/
abbrev FieldType.LONG_BLOB : Nat := 251

/-- Modelled from the spec: `FieldType` numeric code. -/
abbrev FieldType.BLOB : Nat := 252

/-- Modelled from the spec: `FieldType` numeric code. -/
abbrev FieldType.VAR_STRING : Nat := 253

/-- Modelled from the spec: `FieldType` numeric code. -/
abbrev FieldType.STRING : Nat := 254

/-- Modelled from the spec: `FieldType` numeric code. -/
abbrev FieldType.GEOMETRY : Nat := 255

/-- Modelled from the spec: the `FieldFlag.SET` bit of the flag-bit
collaborator (`constants` module, not under `src/`). -/
abbrev FieldFlag.SET : Nat := 2048

/-- Modelled from the spec: the `FieldFlag.BINARY` bit of the flag-bit
collaborator (`constants` module, not under `src/`). -/
abbrev FieldFlag.BINARY : Nat := 128

/-- A field descriptor: the decoders read `flddsc[0]` (column name),
`flddsc[1]` (type code) and `flddsc[7]` (flag bits). -/
structure FieldDescr where
  name : List Char
  typeCode : Nat
  flags : Nat
  deriving DecidableEq, Repr

/-! ## Encode side: `escape`, `quote`, `to_mysql` -/

/-- The replacement chain of `MySQLConverter.escape` (lines 124-131):
backslash first, then newline, carriage return, single quote, double quote
and Ctrl-Z (`'\032'` is replaced by `'\134\032'`, i.e. backslash + Ctrl-Z). -/
def escapeStr (s : List Char) : List Char :=
  replace1 '\x1a' ['\\', '\x1a']
    (replace1 '"' ['\\', '"']
      (replace1 '\'' ['\\', '\'']
        (replace1 '\r' ['\\', 'r']
          (replace1 '\n' ['\\', 'n']
            (replace1 '\\' ['\\', '\\'] s)))))

/-- Python `str(timedelta(...))` as rendered by CPython, used only through
`"%s" % buf` in `quote`'s fallback arm. -/
def pyStrOfTimedelta (days : Int) (secs mcs : Nat) : List Char :=
  let core := natToDigits (secs / 3600) ++ ':' :: pad2 (secs % 3600 / 60)
    ++ ':' :: pad2 (secs % 60)
  let core := if mcs ≠ 0 then core ++ '.' :: pad6 mcs else core
  if days = 0 then core
  else intRepr days ++ (" day").toList
    ++ (if days = 1 ∨ days = -1 then [] else ['s']) ++ ',' :: ' ' :: core

/-- Python `"%Y-%m-%d %H:%M:%S[.%f]"`-style text of a time of day
(`str(datetime.time(...))`). -/
def pyStrOfTime (h mi s mcs : Nat) : List Char :=
  let core := pad2 h ++ ':' :: pad2 mi ++ ':' :: pad2 s
  if mcs ≠ 0 then core ++ '.' :: pad6 mcs else core

/-- Python `str(value)` for each modelled variant, as used by `quote`
(`str(buf)`, `"%s" % buf`) and dispatched to `HexLiteral.__str__` for
hex literals.  The `set` rendering uses insertion order; CPython's is
hash-order, which no claim inspects. -/
def pyStrOf (v : PyValue) : List Char :=
  match v with
  | .none => ("None").toList
  | .bool b => if b then ("True").toList else ("False").toList
  | .int n => intRepr n
  | .long n => intRepr n
  | .float r => r
  | .decimal r => r
  | .str s => s
  | .unicode s => s
  | .hexLiteral h => h.render
  | .date y m d => padLeftZeros 4 (natToDigits y) ++ '-' :: pad2 m ++ '-' :: pad2 d
  | .time h mi s mcs => pyStrOfTime h mi s mcs
  | .datetime y mo d h mi s mcs =>
    padLeftZeros 4 (natToDigits y) ++ '-' :: pad2 mo ++ '-' :: pad2 d
      ++ ' ' :: pyStrOfTime h mi s mcs
  | .timedelta days secs mcs => pyStrOfTimedelta days secs mcs
  | .set es =>
    ("set([").toList
      ++ (List.intersperse ([',', ' ']) (es.map (fun e => '\'' :: (e ++ ['\''])))).flatten
      ++ ("])").toList

/-- `MySQLConverter.escape` (lines 112-131): `None` and the numeric /
hex-literal variants pass through; strings get the six substitutions; any
other object would hit `.replace` and raise `AttributeError`, modelled as a
`typeError`-style error value. -/
def escape (v : PyValue) : Except PyErr PyValue :=
  match v with
  | .none => .ok .none
  | .int n => .ok (.int n)
  | .long n => .ok (.long n)
  | .bool b => .ok (.bool b)
  | .float r => .ok (.float r)
  | .decimal r => .ok (.decimal r)
  | .hexLiteral h => .ok (.hexLiteral h)
  | .str s => .ok (.str (escapeStr s))
  | .unicode s => .ok (.unicode (escapeStr s))
  | other => .error (.typeError (("object has no attribute replace").toList ++ pyStrOf other))

/-- `MySQLConverter.quote` (lines 133-150): ints, longs, decimals and hex
literals via `str(buf)` (a `bool` is an `int` subclass and takes the same
arm), floats via `repr(buf)`, `None` as `NULL`, everything else wrapped in
single quotes. -/
def quote (buf : PyValue) : List Char :=
  match buf with
  | .int n => intRepr n
  | .long n => pyStrOf (.long n)
  | .bool b => pyStrOf (.bool b)
  | .decimal r => r
  | .hexLiteral h => h.render
  | .float r => r
  | .none => ("NULL").toList
  | other => '\'' :: (pyStrOf other ++ ['\''])

/-- `_date_to_mysql` (line 232): `'%d-%02d-%02d'`. -/
def dateToMysql (y m d : Nat) : List Char :=
  natToDigits y ++ '-' :: pad2 m ++ '-' :: pad2 d

/-- `_time_to_mysql` (lines 234-245): `strftime('%H:%M:%S')`, with a
`.%06d` microsecond suffix when the microsecond component is non-zero. -/
def timeToMysql (h mi s mcs : Nat) : List Char :=
  if mcs ≠ 0 then pad2 h ++ ':' :: pad2 mi ++ ':' :: pad2 s ++ '.' :: pad6 mcs
  else pad2 h ++ ':' :: pad2 mi ++ ':' :: pad2 s

/-- `_datetime_to_mysql` (lines 205-221): `'%d-%02d-%02d %02d:%02d:%02d'`
with a `.%06d` suffix when the microsecond component is non-zero. -/
def datetimeToMysql (y mo d h mi s mcs : Nat) : List Char :=
  dateToMysql y mo d ++ ' ' :: timeToMysql h mi s mcs

/-- `_timedelta_to_mysql` (lines 257-284): work on
`abs(days*86400 + seconds)`, borrow one second and complement the
microseconds when the duration is negative and has microseconds, decompose
with `divmod` (Python floor semantics) and prefix `-` for negative days. -/
def timedeltaToMysql (days : Int) (secs mcs : Nat) : List Char :=
  let seconds0 : Int := ((days * 86400 + (secs : Int)).natAbs : Int)
  let seconds : Int := if mcs ≠ 0 ∧ days < 0 then seconds0 - 1 else seconds0
  let mcsOut : Int := if days < 0 then 1000000 - (mcs : Int) else (mcs : Int)
  let hours := seconds.fdiv 3600
  let remainder := seconds.fmod 3600
  let mins := remainder.fdiv 60
  let secsOut := remainder.fmod 60
  let core := fmtInt2 hours ++ ':' :: fmtInt2 mins ++ ':' :: fmtInt2 secsOut
  let core := if mcs ≠ 0 then core ++ '.' :: fmtInt6 mcsOut else core
  if days < 0 then '-' :: core else core

/-- Error message of `to_mysql` when no `_<name>_to_mysql` method exists. -/
def noConverterMsg (typeName : List Char) : List Char :=
  ("Python ").toList ++ '\'' :: (typeName ++ ['\''])
    ++ (" cannot be converted to a MySQL type").toList

/-- `MySQLConverter.to_mysql` (lines 152-159) together with the
`_<type>_to_mysql` handlers: dispatch on the value's class name; a variant
with no handler (notably `hexliteral` and `set`) raises `TypeError`. -/
def to_mysql (cfg : Converter) (v : PyValue) : Except PyErr PyValue :=
  match v with
  | .none => .ok .none
  | .bool b => .ok (.int (if b then 1 else 0))
  | .int n => .ok (.int n)
  | .long n => .ok (.long n)
  | .float r => .ok (.float r)
  | .decimal r => .ok (.str r)
  | .str s => .ok (.str s)
  | .unicode s =>
    if cfg.charsetId ∈ cfg.slashCharsets ∧ '\x5c' ∈ cfg.encode s then
      .ok (.hexLiteral (HexLiteral.new cfg.encode s cfg.charset))
    else .ok (.str (cfg.encode s))
  | .hexLiteral _ => .error (.typeError (noConverterMsg (("hexliteral").toList)))
  | .date y m d => .ok (.str (dateToMysql y m d))
  | .time h mi s mcs => .ok (.str (timeToMysql h mi s mcs))
  | .datetime y mo d h mi s mcs => .ok (.str (datetimeToMysql y mo d h mi s mcs))
  | .timedelta days secs mcs => .ok (.str (timedeltaToMysql days secs mcs))
  | .set _ => .error (.typeError (noConverterMsg (("set").toList)))

/-! ## Decode side: the `_<TYPE>_to_python` decoders and `to_python` -/

/-- `_FLOAT_to_python` / `_DOUBLE_to_python` (lines 334-339).  Float parsing
is outside the embedding; the parsed float is represented by its text. -/
def FLOAT_to_python (value : List Char) : Except PyErr PyValue :=
  .ok (.float value)

/-- `_INT_to_python` and aliases (lines 341-348): `int(value)`. -/
def INT_to_python (value : List Char) : Except PyErr PyValue :=
  (pyInt value).map .int

/-- `_LONG_to_python` / `_LONGLONG_to_python` (lines 350-355): `int(value)`. -/
def LONG_to_python (value : List Char) : Except PyErr PyValue :=
  (pyInt value).map .int

/-- `_DECIMAL_to_python` / `_NEWDECIMAL_to_python` (lines 357-362):
`Decimal(value)`, modelled as carrying the literal text. -/
def DECIMAL_to_python (value : List Char) : Except PyErr PyValue :=
  .ok (.decimal value)

/-- `_BIT_to_python` (lines 370-375): left-pad the raw bytes with NUL to
8 bytes and unpack as a big-endian unsigned 64-bit integer
(`struct.unpack('>Q', ...)`, which demands exactly 8 bytes). -/
def BIT_to_python (value : List Char) : Except PyErr PyValue :=
  let padded := List.replicate (8 - value.length) '\x00' ++ value
  if padded.length = 8 then
    .ok (.int (padded.foldl (fun a c => a * 256 + (c.toNat : Int)) 0))
  else .error .structError

/-- The number of days of a month in the proleptic Gregorian calendar used
by `datetime.date`. -/
def pyDaysInMonth (y m : Int) : Int :=
  if m = 2 then
    (if y.emod 4 = 0 ∧ (y.emod 100 ≠ 0 ∨ y.emod 400 = 0) then 29 else 28)
  else if m = 4 ∨ m = 6 ∨ m = 9 ∨ m = 11 then 30
  else 31

/-- `datetime.date(y, m, d)`: CPython range checks, `ValueError` outside. -/
def pyDate (y m d : Int) : Except PyErr PyValue :=
  if 1 ≤ y ∧ y ≤ 9999 ∧ 1 ≤ m ∧ m ≤ 12 ∧ 1 ≤ d ∧ d ≤ pyDaysInMonth y m then
    .ok (.date y.toNat m.toNat d.toNat)
  else .error (.valueError (("date value out of range").toList))

/-- `datetime.datetime(y, mo, d, h, mi, s, mcs)`: CPython range checks. -/
def pyDatetime (y mo d h mi s mcs : Int) : Except PyErr PyValue :=
  match pyDate y mo d with
  | .error e => .error e
  | .ok _ =>
    if 0 ≤ h ∧ h ≤ 23 ∧ 0 ≤ mi ∧ mi ≤ 59 ∧ 0 ≤ s ∧ s ≤ 59
        ∧ 0 ≤ mcs ∧ mcs ≤ 999999 then
      .ok (.datetime y.toNat mo.toNat d.toNat h.toNat mi.toNat s.toNat mcs.toNat)
    else .error (.valueError (("datetime value out of range").toList))

/-- `datetime.datetime(*dtval)`: between 3 and 7 positional int arguments;
an 8th argument would be the `tzinfo` slot, where an int is a `TypeError`. -/
def pyDatetimeStar (args : List Int) : Except PyErr PyValue :=
  match args with
  | [y, mo, d] => pyDatetime y mo d 0 0 0 0
  | [y, mo, d, h] => pyDatetime y mo d h 0 0 0
  | [y, mo, d, h, mi] => pyDatetime y mo d h mi 0 0
  | [y, mo, d, h, mi, s] => pyDatetime y mo d h mi s 0
  | [y, mo, d, h, mi, s, mcs] => pyDatetime y mo d h mi s mcs
  | [_, _, _, _, _, _, _, _] =>
    .error (.typeError (("tzinfo argument must be None or of a tzinfo subclass").toList))
  | _ => .error (.typeError (("wrong number of arguments for datetime").toList))

/-- `datetime.timedelta(hours=, minutes=, seconds=, microseconds=)`:
CPython normalizes to `(days, seconds, microseconds)` with
`0 <= seconds < 86400` and `0 <= microseconds < 1000000` (floor division). -/
def mkTimedelta (hours mins secs mcs : Int) : PyValue :=
  .timedelta
    (((hours * 3600 + mins * 60 + secs) * 1000000 + mcs).fdiv 86400000000)
    ((((hours * 3600 + mins * 60 + secs) * 1000000 + mcs).fmod
      86400000000).fdiv 1000000).toNat
    ((((hours * 3600 + mins * 60 + secs) * 1000000 + mcs).fmod
      86400000000).fmod 1000000).toNat

/-- `_DATE_to_python` / `_NEWDATE_to_python` (lines 377-386): split on `-`,
convert three parts with `int`, build a `datetime.date`; a `ValueError`
anywhere yields `None`, but an out-of-range index is an uncaught
`IndexError`.  Python evaluates `int(parts[0])` before indexing `parts[1]`. -/
def dateBody (parts : List (List Char)) : Except PyErr PyValue :=
  match pyIndex parts 0 with
  | .error e => .error e
  | .ok p0 =>
    match pyInt p0 with
    | .error e => .error e
    | .ok y =>
      match pyIndex parts 1 with
      | .error e => .error e
      | .ok p1 =>
        match pyInt p1 with
        | .error e => .error e
        | .ok m =>
          match pyIndex parts 2 with
          | .error e => .error e
          | .ok p2 =>
            match pyInt p2 with
            | .error e => .error e
            | .ok d => pyDate y m d

/-- The surrounding `try`/`except ValueError` of `_DATE_to_python`. -/
def DATE_to_python (value : List Char) : Except PyErr PyValue :=
  catchValueError (dateBody (splitOnChar '-' value)) (.ok .none)

/-- First stage of `_TIME_to_python` (lines 392-398): try to split off a
microsecond part on `.` and right-pad it to six digits; any `ValueError`
falls back to the whole value with zero microseconds. -/
def timeStep1 (value : List Char) : List Char × Int :=
  let attempt : Except PyErr (List Char × Int) :=
    match unpack2 (splitOnChar '.' value) with
    | .error e => .error e
    | .ok (hms, mcsS) =>
      match pyInt (ljust mcsS 6 '0') with
      | .error e => .error e
      | .ok mcs => .ok (hms, mcs)
  match attempt with
  | .ok r => r
  | .error _ => (value, 0)

/-- Second stage of `_TIME_to_python` (lines 399-409): parse `hms` as three
colon-separated ints, negate minutes/seconds/microseconds when the raw value
starts with `-`, and build the `timedelta`. -/
def timeBody (value hms : List Char) (mcs : Int) : Except PyErr PyValue :=
  match mapPyInt (splitOnChar ':' hms) with
  | .error e => .error e
  | .ok l =>
    match unpack3 l with
    | .error e => .error e
    | .ok (hours, mins, secs) =>
      match pyIndex value 0 with
      | .error e => .error e
      | .ok c0 =>
        if c0 = '-' then .ok (mkTimedelta hours (-mins) (-secs) (-mcs))
        else .ok (mkTimedelta hours mins secs mcs)

/-- The `ValueError` message `_TIME_to_python` raises on a parse failure. -/
def timeErrMsg (value : List Char) : List Char :=
  ("Could not convert ").toList ++ value ++ (" to python datetime.timedelta").toList

/-- `_TIME_to_python` (lines 388-409). -/
def TIME_to_python (value : List Char) : Except PyErr PyValue :=
  catchValueError (timeBody value (timeStep1 value).1 (timeStep1 value).2)
    (.error (.valueError (timeErrMsg value)))

/-- `_DATETIME_to_python` / `_TIMESTAMP_to_python` (lines 411-431): split
date and time on the blank, optionally split microseconds, convert all parts
with `int` and call `datetime.datetime(*dtval)`; a `ValueError` anywhere
yields `None` (a `TypeError` from the constructor does not). -/
def datetimeBody (value : List Char) : Except PyErr PyValue :=
  match unpack2 (splitOnChar ' ' value) with
  | .error e => .error e
  | .ok (date_, time_) =>
    match (if time_.length > 8 then
        match unpack2 (splitOnChar '.' time_) with
        | .error e => .error e
        | .ok (hms, mcsS) =>
          match pyInt (ljust mcsS 6 '0') with
          | .error e => .error e
          | .ok mcs => .ok (hms, mcs)
      else (.ok (time_, 0) : Except PyErr (List Char × Int))) with
    | .error e => .error e
    | .ok (hms, mcs) =>
      match mapPyInt (splitOnChar '-' date_) with
      | .error e => .error e
      | .ok dparts =>
        match mapPyInt (splitOnChar ':' hms) with
        | .error e => .error e
        | .ok tparts => pyDatetimeStar (dparts ++ tparts ++ [mcs])

/-- The surrounding `try`/`except ValueError` of `_DATETIME_to_python`. -/
def DATETIME_to_python (value : List Char) : Except PyErr PyValue :=
  catchValueError (datetimeBody value) (.ok .none)

/-- The `ValueError` message `_YEAR_to_python` raises on a parse failure. -/
def yearErrMsg (value : List Char) : List Char :=
  ("Failed converting YEAR to int (").toList ++ value ++ [')']

/-- `_YEAR_to_python` (lines 433-440): `int(value)`, re-raising a
`ValueError` with its own message. -/
def YEAR_to_python (value : List Char) : Except PyErr PyValue :=
  match pyInt value with
  | .ok year => .ok (.int year)
  | .error (.valueError _) => .error (.valueError (yearErrMsg value))
  | .error e => .error e

/-- `_SET_to_python` (lines 442-455): `set(value.split(','))`, kept in
split order (CPython's set iteration order is not modelled). -/
def SET_to_python (value : List Char) : Except PyErr PyValue :=
  .ok (.set (splitOnChar ',' value))

/-- `_STRING_to_python` / `_VAR_STRING_to_python` (lines 457-478): a SET
flag splits, a BINARY flag passes the bytes through, otherwise decode with
the configured charset when `use_unicode` is set and fall back to
`str(value)` when it is not. -/
def STRING_to_python (cfg : Converter) (value : List Char)
    (dsc : Option FieldDescr) : Except PyErr PyValue :=
  match dsc with
  | some d =>
    if d.flags &&& FieldFlag.SET ≠ 0 then SET_to_python value
    else if d.flags &&& FieldFlag.BINARY ≠ 0 then .ok (.str value)
    else if cfg.useUnicode then (cfg.decode value).map .unicode
    else .ok (.str value)
  | Option.none =>
    if cfg.useUnicode then (cfg.decode value).map .unicode
    else .ok (.str value)

/-- `_BLOB_to_python` and the sized variants (lines 480-489). -/
def BLOB_to_python (cfg : Converter) (value : List Char)
    (dsc : Option FieldDescr) : Except PyErr PyValue :=
  match dsc with
  | some d =>
    if d.flags &&& FieldFlag.BINARY ≠ 0 then .ok (.str value)
    else STRING_to_python cfg value dsc
  | Option.none => STRING_to_python cfg value dsc

/-- The decoder cache built in `to_python` (lines 312-320) from
`FieldType.desc` and the `_<NAME>_to_python` methods: every name with a
method is registered; `NULL`, `VARCHAR`, `ENUM` and `GEOMETRY` have none. -/
def decoderFor (cfg : Converter) (code : Nat) (value : List Char)
    (dsc : FieldDescr) : Option (Except PyErr PyValue) :=
  match code with
  | 0 => some (DECIMAL_to_python value)
  | 246 => some (DECIMAL_to_python value)
  | 4 => some (FLOAT_to_python value)
  | 5 => some (FLOAT_to_python value)
  | 1 => some (INT_to_python value)
  | 2 => some (INT_to_python value)
  | 9 => some (INT_to_python value)
  | 3 => some (LONG_to_python value)
  | 8 => some (LONG_to_python value)
  | 16 => some (BIT_to_python value)
  | 10 => some (DATE_to_python value)
  | 14 => some (DATE_to_python value)
  | 11 => some (TIME_to_python value)
  | 12 => some (DATETIME_to_python value)
  | 7 => some (DATETIME_to_python value)
  | 13 => some (YEAR_to_python value)
  | 248 => some (SET_to_python value)
  | 254 => some (STRING_to_python cfg value (some dsc))
  | 253 => some (STRING_to_python cfg value (some dsc))
  | 252 => some (BLOB_to_python cfg value (some dsc))
  | 249 => some (BLOB_to_python cfg value (some dsc))
  | 250 => some (BLOB_to_python cfg value (some dsc))
  | 251 => some (BLOB_to_python cfg value (some dsc))
  | _ => Option.none

/-- The text `" (field <name>)"` appended by `to_python`'s handlers. -/
def fieldSuffix (name : List Char) : List Char :=
  (" (field ").toList ++ name ++ [')']

/-- The `except` clauses of `to_python` (lines 322-332): a `KeyError`
falls back to `str(value)`, a `ValueError` or `TypeError` is re-raised with
the column name appended, anything else propagates unchanged. -/
def pyExceptWrap (name value : List Char) (r : Except PyErr PyValue) :
    Except PyErr PyValue :=
  match r with
  | .error .keyError => .ok (.str value)
  | .error (.valueError m) => .error (.valueError (m ++ fieldSuffix name))
  | .error (.typeError m) => .error (.typeError (m ++ fieldSuffix name))
  | x => x

/-- The single NUL byte `to_python` treats as the NULL marker. -/
def nullMarker : List Char := ['\x00']

/-- `MySQLConverter.to_python` (lines 298-332): the NUL marker outside BIT
columns and an absent value decode to `None`; otherwise dispatch on the type
code, falling back to `str(value)` for unregistered codes, and wrap errors
with the column name. -/
def to_python (cfg : Converter) (flddsc : FieldDescr)
    (value : Option (List Char)) : Except PyErr PyValue :=
  match value with
  | Option.none => .ok .none
  | some v =>
    if v = nullMarker ∧ flddsc.typeCode ≠ FieldType.BIT then .ok .none
    else
      match decoderFor cfg flddsc.typeCode v flddsc with
      | Option.none => .ok (.str v)
      | some r => pyExceptWrap flddsc.name v r

/-! ## Helper lemmas about digits, parsing and splitting -/

theorem digitCharOf_spec (d : Nat) (h : d < 10) :
    isDigitCh (digitCharOf d) = true ∧ digitVal (digitCharOf d) = d := by
  interval_cases d <;> exact ⟨by decide, by decide⟩

theorem natToDigitsAux_congr : ∀ (n f g : Nat), n ≤ f → n ≤ g →
    natToDigitsAux f n = natToDigitsAux g n := by
  intro n
  induction n using Nat.strong_induction_on with
  | _ n ih =>
    intro f g hf hg
    by_cases h : n < 10
    · cases f <;> cases g <;> simp [natToDigitsAux, h]
    · cases f with
      | zero => omega
      | succ f2 =>
        cases g with
        | zero => omega
        | succ g2 =>
          simp only [natToDigitsAux, if_neg h]
          rw [ih (n / 10) (Nat.div_lt_self (by omega) (by omega)) f2 g2
            (by omega) (by omega)]

theorem natToDigits_eq (n : Nat) : natToDigits n =
    if n < 10 then [digitCharOf n]
    else natToDigits (n / 10) ++ [digitCharOf (n % 10)] := by
  unfold natToDigits
  rw [natToDigitsAux_congr n n (n + 1) (Nat.le_refl n) (by omega)]
  show (if n < 10 then [digitCharOf n]
    else natToDigitsAux n (n / 10) ++ [digitCharOf (n % 10)]) = _
  by_cases h : n < 10
  · rw [if_pos h, if_pos h]
  · rw [if_neg h, if_neg h,
      natToDigitsAux_congr (n / 10) n (n / 10) (by omega) (Nat.le_refl _)]

theorem natToDigits_ne_nil (n : Nat) : natToDigits n ≠ [] := by
  rw [natToDigits_eq]; split <;> simp

theorem natToDigits_all_digit (n : Nat) :
    ∀ c ∈ natToDigits n, isDigitCh c = true := by
  induction n using Nat.strong_induction_on with
  | _ n ih =>
    rw [natToDigits_eq]
    split
    · intro c hc
      rw [List.mem_singleton] at hc
      subst hc
      exact (digitCharOf_spec n (by omega)).1
    · intro c hc
      rw [List.mem_append] at hc
      rcases hc with h1 | h2
      · exact ih (n / 10) (Nat.div_lt_self (by omega) (by omega)) c h1
      · rw [List.mem_singleton] at h2
        subst h2
        exact (digitCharOf_spec (n % 10) (Nat.mod_lt _ (by omega))).1

theorem parseDigits_append_one (l : List Char) (c : Char) :
    parseDigits (l ++ [c]) = parseDigits l * 10 + digitVal c := by
  simp [parseDigits, List.foldl_append]

theorem parseDigits_natToDigits (n : Nat) : parseDigits (natToDigits n) = n := by
  induction n using Nat.strong_induction_on with
  | _ n ih =>
    rw [natToDigits_eq]
    split
    · simp [parseDigits, (digitCharOf_spec n (by omega)).2]
    · rw [parseDigits_append_one, ih (n / 10) (Nat.div_lt_self (by omega) (by omega)),
        (digitCharOf_spec (n % 10) (Nat.mod_lt _ (by omega))).2]
      omega

theorem isDigitCh_toNat (c : Char) (h : isDigitCh c = true) :
    48 ≤ c.toNat ∧ c.toNat ≤ 57 := by
  simp [isDigitCh] at h
  exact h

theorem digit_not_space (c : Char) (h : isDigitCh c = true) : isPySpace c = false := by
  rcases isDigitCh_toNat c h with ⟨h1, h2⟩
  by_contra hsp
  rw [Bool.not_eq_false, isPySpace] at hsp
  simp at hsp
  rcases hsp with h3 | h3 | h3 | h3 | h3 | h3 <;> subst h3 <;>
    exact absurd h1 (by decide)

theorem digit_ne_of_not_digit (c d : Char) (h : isDigitCh c = true)
    (hd : isDigitCh d = false) : c ≠ d := by
  intro he
  subst he
  rw [h] at hd
  cases hd

theorem dropWhile_all_false {p : Char → Bool} :
    ∀ l : List Char, (∀ c ∈ l, p c = false) → l.dropWhile p = l := by
  intro l h
  cases l with
  | nil => rfl
  | cons c t => simp [List.dropWhile, h c (by simp)]

theorem stripWs_all_nonspace (l : List Char) (h : ∀ c ∈ l, isPySpace c = false) :
    stripWs l = l := by
  unfold stripWs
  rw [dropWhile_all_false l h, dropWhile_all_false l.reverse
    (by intro c hc; exact h c (List.mem_reverse.mp hc)), List.reverse_reverse]

theorem pyInt_digits (l : List Char) (hne : l ≠ [])
    (hd : ∀ c ∈ l, isDigitCh c = true) :
    pyInt l = .ok (parseDigits l) := by
  unfold pyInt
  rw [stripWs_all_nonspace l (fun c hc => digit_not_space c (hd c hc))]
  cases l with
  | nil => exact absurd rfl hne
  | cons c r =>
    have hc : isDigitCh c = true := hd c (by simp)
    rw [pyIntCore]
    rw [if_neg (digit_ne_of_not_digit c '-' hc (by decide)),
      if_neg (digit_ne_of_not_digit c '+' hc (by decide)),
      if_pos]
    unfold digitsOk
    simp only [List.isEmpty_cons, Bool.not_false, Bool.true_and]
    exact List.all_eq_true.mpr (fun x hx => hd x hx)

theorem pyInt_natToDigits (n : Nat) : pyInt (natToDigits n) = .ok (n : Int) := by
  rw [pyInt_digits (natToDigits n) (natToDigits_ne_nil n) (natToDigits_all_digit n),
    parseDigits_natToDigits]

theorem parseDigits_replicate_zero (k : Nat) (l : List Char) :
    parseDigits (List.replicate k '0' ++ l) = parseDigits l := by
  induction k with
  | zero => rfl
  | succ k ih =>
    have : List.replicate (k + 1) '0' ++ l = '0' :: (List.replicate k '0' ++ l) := by
      simp [List.replicate_succ]
    rw [this]
    simpa [parseDigits] using ih

theorem padLeftZeros_all_digit (w : Nat) (l : List Char)
    (h : ∀ c ∈ l, isDigitCh c = true) :
    ∀ c ∈ padLeftZeros w l, isDigitCh c = true := by
  intro c hc
  rw [padLeftZeros, List.mem_append] at hc
  rcases hc with h1 | h1
  · rw [List.eq_of_mem_replicate h1]; decide
  · exact h c h1

theorem pyInt_padLeftZeros (w n : Nat) :
    pyInt (padLeftZeros w (natToDigits n)) = .ok (n : Int) := by
  rw [pyInt_digits _ (by
      unfold padLeftZeros
      intro hx
      exact natToDigits_ne_nil n (List.append_eq_nil.mp hx).2)
    (padLeftZeros_all_digit w _ (natToDigits_all_digit n))]
  rw [padLeftZeros, parseDigits_replicate_zero, parseDigits_natToDigits]

theorem pyInt_pad2 (n : Nat) : pyInt (pad2 n) = .ok (n : Int) :=
  pyInt_padLeftZeros 2 n

theorem pyInt_pad6 (n : Nat) : pyInt (pad6 n) = .ok (n : Int) :=
  pyInt_padLeftZeros 6 n

theorem padLeftZeros_length (w : Nat) (l : List Char) (h : l.length ≤ w) :
    (padLeftZeros w l).length = w := by
  simp [padLeftZeros]
  omega

theorem natToDigits_length_le (k : Nat) : ∀ n : Nat, n < 10 ^ k → 1 ≤ k →
    (natToDigits n).length ≤ k := by
  induction k with
  | zero => omega
  | succ k ih =>
    intro n hn _
    rw [natToDigits_eq]
    split
    · simp
    · rename_i hge
      rw [List.length_append, List.length_singleton]
      have hk : 1 ≤ k := by
        by_contra hk0
        have : k = 0 := by omega
        subst this
        simp [pow_succ] at hn
        omega
      have : (natToDigits (n / 10)).length ≤ k := by
        refine ih (n / 10) ?_ hk
        rw [Nat.div_lt_iff_lt_mul (by omega)]
        calc n < 10 ^ (k + 1) := hn
        _ = 10 ^ k * 10 := by ring
      omega

theorem pad2_length (n : Nat) (h : n < 100) : (pad2 n).length = 2 := by
  refine padLeftZeros_length 2 _ ?_
  exact natToDigits_length_le 2 n (by omega) (by omega)

theorem pad6_length (n : Nat) (h : n < 1000000) : (pad6 n).length = 6 := by
  refine padLeftZeros_length 6 _ ?_
  exact natToDigits_length_le 6 n (by omega) (by omega)

theorem splitOnChar_no_sep (sep : Char) :
    ∀ l : List Char, (∀ c ∈ l, c ≠ sep) → splitOnChar sep l = [l] := by
  intro l
  induction l with
  | nil => intro _; rfl
  | cons c t ih =>
    intro h
    rw [splitOnChar]
    simp only [if_neg (h c (by simp))]
    rw [ih (fun x hx => h x (by simp [hx]))]

theorem splitOnChar_append (sep : Char) (b : List Char) :
    ∀ a : List Char, (∀ c ∈ a, c ≠ sep) →
    splitOnChar sep (a ++ sep :: b) = a :: splitOnChar sep b := by
  intro a
  induction a with
  | nil =>
    intro _
    simp [splitOnChar]
  | cons c t ih =>
    intro h
    rw [List.cons_append, splitOnChar]
    simp only [if_neg (h c (by simp))]
    rw [ih (fun x hx => h x (by simp [hx]))]

theorem replace1_id (old : Char) (new : List Char) :
    ∀ l : List Char, (∀ c ∈ l, c ≠ old) → replace1 old new l = l := by
  intro l
  induction l with
  | nil => intro _; rfl
  | cons c t ih =>
    intro h
    rw [replace1, if_neg (h c (by simp)), ih (fun x hx => h x (by simp [hx]))]
    rfl

theorem pyInt_cases (s : List Char) :
    (∃ n, pyInt s = .ok n) ∨ (∃ m, pyInt s = .error (.valueError m)) := by
  unfold pyInt pyIntCore
  rcases stripWs s with _ | ⟨c, r⟩
  · exact .inr ⟨_, rfl⟩
  · dsimp only
    split
    · split
      · exact .inl ⟨_, rfl⟩
      · exact .inr ⟨_, rfl⟩
    · split
      · split
        · exact .inl ⟨_, rfl⟩
        · exact .inr ⟨_, rfl⟩
      · split
        · exact .inl ⟨_, rfl⟩
        · exact .inr ⟨_, rfl⟩

theorem mapPyInt_error : ∀ (ls : List (List Char)) (e : PyErr),
    mapPyInt ls = .error e → ∃ m, e = .valueError m := by
  intro ls
  induction ls with
  | nil => intro e h; cases h
  | cons x xs ih =>
    intro e h
    rw [mapPyInt] at h
    rcases pyInt_cases x with ⟨n, hn⟩ | ⟨m, hm⟩
    · rw [hn] at h
      rcases he : mapPyInt xs with e2 | l2
      · rw [he] at h
        cases h
        exact ih _ he
      · rw [he] at h
        cases h
    · rw [hm] at h
      cases h
      exact ⟨m, rfl⟩

/-! ## Claim theorems -/

/-- The six characters `escape` substitutes. -/
def specialChars : List Char := ['\\', '\n', '\r', '\'', '"', '\x1a']

/-- A concrete converter state used by closed statements: `utf8`, id 33,
`use_unicode` on, no slash charsets, identity codec. -/
def cfg0 : Converter :=
  { charset := ("utf8").toList
    charsetId := 33
    useUnicode := true
    slashCharsets := []
    encode := fun s => s
    decode := fun s => .ok s }

/-- Modelled from the spec: the charset codec applied to ASCII-range text,
where every charset the codec handles encodes each character to the byte
with the same code point. -/
def identityEncode : List Char → List Char := fun s => s

/-- C1: for a text string with none of the six special characters, `escape`
is the identity and `quote` wraps the string in single quotes, so
`quote(escape(s))` is `'` + s + `'`. -/
theorem quote_escape_plain_string (s : List Char)
    (h : ∀ c ∈ s, c ∉ specialChars) :
    Except.map quote (escape (.str s)) = .ok ('\'' :: (s ++ ['\''])) := by
  have h1 : ∀ c ∈ s, c ≠ '\\' := fun c hc he => h c hc (by subst he; decide)
  have h2 : ∀ c ∈ s, c ≠ '\n' := fun c hc he => h c hc (by subst he; decide)
  have h3 : ∀ c ∈ s, c ≠ '\r' := fun c hc he => h c hc (by subst he; decide)
  have h4 : ∀ c ∈ s, c ≠ '\'' := fun c hc he => h c hc (by subst he; decide)
  have h5 : ∀ c ∈ s, c ≠ '"' := fun c hc he => h c hc (by subst he; decide)
  have h6 : ∀ c ∈ s, c ≠ '\x1a' := fun c hc he => h c hc (by subst he; decide)
  have hesc : escapeStr s = s := by
    unfold escapeStr
    rw [replace1_id _ _ s h1, replace1_id _ _ s h2, replace1_id _ _ s h3,
      replace1_id _ _ s h4, replace1_id _ _ s h5, replace1_id _ _ s h6]
  simp [escape, hesc, Except.map, quote, pyStrOf]

/-- Closed witness for the C1 theorem at the string `O Brien`. -/
theorem quote_escape_plain_string_witness :
    (∀ c ∈ ("O Brien").toList, c ∉ specialChars) ∧
    Except.map quote (escape (.str (("O Brien").toList))) =
      .ok ('\'' :: ((("O Brien").toList) ++ ['\''])) :=
  ⟨by decide, quote_escape_plain_string _ (by decide)⟩

/-- C2 counterexample: `to_mysql` applied to a concrete `HexLiteral` does
not return it unchanged (it raises a `TypeError`, since there is no
`_hexliteral_to_mysql` handler). -/
theorem to_mysql_hexliteral_raises_cex :
    to_mysql cfg0
        (.hexLiteral { digits := ['6', '1'], original := ['a'], charset := ("utf8").toList })
      ≠ .ok
        (.hexLiteral { digits := ['6', '1'], original := ['a'], charset := ("utf8").toList }) := by
  decide

/-- C2 amended: `to_mysql` on any Hex-Literal raises the `TypeError` naming
the `hexliteral` variant; the re-encoding bypass exists only in `escape`
and `quote`, which return the Hex-Literal unchanged / self-rendered. -/
theorem to_mysql_hexliteral_typeerror (cfg : Converter) (h : HexLiteral) :
    to_mysql cfg (.hexLiteral h)
        = .error (.typeError (noConverterMsg (("hexliteral").toList)))
      ∧ escape (.hexLiteral h) = .ok (.hexLiteral h)
      ∧ quote (.hexLiteral h) = h.render :=
  ⟨rfl, rfl, rfl⟩

/-- C3 counterexample: the normalized duration `(days=-1, seconds=86399,
microseconds=500000)` (which is -0.5 s) does not encode to
`-23:59:59.500000`. -/
theorem timedelta_neg_half_second_cex :
    timedeltaToMysql (-1) 86399 500000 ≠ ("-23:59:59.500000").toList := by
  decide

/-- C3 amended: `(days=-1, seconds=86399, microseconds=0)` (-1 s) encodes
to `-00:00:01`, and `(days=-1, seconds=86399, microseconds=500000)`
(-0.5 s) encodes to `-00:00:00.500000`. -/
theorem timedelta_negative_encoding :
    timedeltaToMysql (-1) 86399 0 = ("-00:00:01").toList ∧
    timedeltaToMysql (-1) 86399 500000 = ("-00:00:00.500000").toList := by
  decide

/-- C4: the code renders the single byte 0x09 as the one hex digit `9`
(Python `"{0:x}"` does not zero-pad), so `digits` is not two hex digits
per byte as the claim requires, while the `0x`-prefixed rendering holds. -/
theorem hexliteral_unpadded_digit :
    (HexLiteral.new identityEncode [Char.ofNat 9] (("utf8").toList)).digits = ['9'] ∧
    (HexLiteral.new identityEncode [Char.ofNat 9] (("utf8").toList)).digits ≠ ['0', '9'] ∧
    (HexLiteral.new identityEncode [Char.ofNat 9] (("utf8").toList)).render
      = ['0', 'x', '9'] := by
  refine ⟨by decide, by decide, by decide⟩

/-- `pyInt` succeeds on the value (used to state malformedness of YEAR input). -/
def pyIntOkB (v : List Char) : Bool :=
  match pyInt v with
  | .ok _ => true
  | .error _ => false

/-- The raw TIME value fails the second parsing stage of `_TIME_to_python`
(its `hms` part is not exactly three colon-separated integers). -/
def timeMalformedB (v : List Char) : Bool :=
  match mapPyInt (splitOnChar ':' (timeStep1 v).1) with
  | .ok l => decide (l.length ≠ 3)
  | .error _ => true

theorem unpack3_of_length_ne {α : Type} (l : List α) (h : l.length ≠ 3) :
    unpack3 l = .error (.valueError (("unpacking requires three values").toList)) := by
  match l with
  | [] => rfl
  | [a] => rfl
  | [a, b] => rfl
  | [a, b, c] => simp at h
  | a :: b :: c :: d :: t => rfl

/-- C8: a raw value of the single byte 0x00 decodes to null on every
non-BIT field, an absent raw value decodes to null on every field, and on
a BIT field the byte 0x00 is fed to the BIT decoder, giving the integer 0. -/
theorem null_marker_decode (cfg : Converter) (dsc : FieldDescr) :
    (dsc.typeCode ≠ FieldType.BIT → to_python cfg dsc (some nullMarker) = .ok .none) ∧
    to_python cfg dsc Option.none = .ok .none ∧
    (∀ name flags, to_python cfg ⟨name, FieldType.BIT, flags⟩ (some nullMarker)
      = .ok (.int 0)) := by
  refine ⟨?_, rfl, ?_⟩
  · intro h
    simp only [to_python]
    rw [if_pos ⟨trivial, h⟩]
  · intro name flags
    rfl

/-- Closed witness for the C8 theorem at a STRING field and a BIT field. -/
theorem null_marker_decode_witness :
    ((⟨("c").toList, FieldType.STRING, 0⟩ : FieldDescr).typeCode ≠ FieldType.BIT) ∧
    to_python cfg0 ⟨("c").toList, FieldType.STRING, 0⟩ (some nullMarker) = .ok .none ∧
    to_python cfg0 ⟨("c").toList, FieldType.STRING, 0⟩ Option.none = .ok .none ∧
    to_python cfg0 ⟨("c").toList, FieldType.BIT, 0⟩ (some nullMarker) = .ok (.int 0) :=
  ⟨by decide,
   (null_marker_decode cfg0 ⟨("c").toList, FieldType.STRING, 0⟩).1 (by decide),
   (null_marker_decode cfg0 ⟨("c").toList, FieldType.STRING, 0⟩).2.1,
   (null_marker_decode cfg0 ⟨("c").toList, FieldType.BIT, 0⟩).2.2 (("c").toList) 0⟩

/-- C9: a byte string goes through `_str_to_mysql` unchanged, with no
charset encoding and no Hex-Literal fallback, for every converter state;
only a unicode value takes the backslash-byte check, and when its encoded
bytes contain a backslash under a slash charset it is wrapped. -/
theorem str_passthrough_unicode_hexwrap (cfg : Converter) (s : List Char) :
    to_mysql cfg (.str s) = .ok (.str s) ∧
    (∀ u : List Char, cfg.charsetId ∈ cfg.slashCharsets → '\x5c' ∈ cfg.encode u →
      to_mysql cfg (.unicode u)
        = .ok (.hexLiteral (HexLiteral.new cfg.encode u cfg.charset))) := by
  refine ⟨rfl, ?_⟩
  intro u h1 h2
  simp only [to_mysql]
  rw [if_pos ⟨h1, h2⟩]

/-- A converter state whose charset id is in the slash-charset family. -/
def cfgSlash : Converter :=
  { charset := ("sjis").toList
    charsetId := 13
    useUnicode := true
    slashCharsets := [13]
    encode := fun s => s
    decode := fun s => .ok s }

/-- Closed witness for the C9 theorem on a value containing a backslash
under a slash charset. -/
theorem str_passthrough_unicode_hexwrap_witness :
    to_mysql cfgSlash (.str (("a\\b").toList)) = .ok (.str (("a\\b").toList)) ∧
    cfgSlash.charsetId ∈ cfgSlash.slashCharsets ∧
    '\x5c' ∈ cfgSlash.encode (("a\\b").toList) ∧
    to_mysql cfgSlash (.unicode (("a\\b").toList))
      = .ok (.hexLiteral (HexLiteral.new cfgSlash.encode (("a\\b").toList)
          cfgSlash.charset)) :=
  ⟨(str_passthrough_unicode_hexwrap cfgSlash (("a\\b").toList)).1,
   by decide, by decide,
   (str_passthrough_unicode_hexwrap cfgSlash (("a\\b").toList)).2
     (("a\\b").toList) (by decide) (by decide)⟩

/-- C7: a malformed raw input reaching the YEAR or TIME decoder makes
`to_python` surface a `ValueError` whose message carries the decoder's own
text annotated with the column name from the field descriptor. -/
theorem time_year_conversion_error (cfg : Converter) (name : List Char)
    (flags : Nat) (v : List Char) (hv : v ≠ nullMarker) :
    (pyIntOkB v = false →
      to_python cfg ⟨name, FieldType.YEAR, flags⟩ (some v)
        = .error (.valueError (yearErrMsg v ++ fieldSuffix name))) ∧
    (timeMalformedB v = true →
      to_python cfg ⟨name, FieldType.TIME, flags⟩ (some v)
        = .error (.valueError (timeErrMsg v ++ fieldSuffix name))) := by
  constructor
  · intro h
    simp only [to_python]
    rw [if_neg (fun hh => hv hh.1)]
    show pyExceptWrap name v (YEAR_to_python v) = _
    rcases pyInt_cases v with ⟨n, hn⟩ | ⟨m, hm⟩
    · unfold pyIntOkB at h
      rw [hn] at h
      cases h
    · unfold YEAR_to_python
      rw [hm]
      rfl
  · intro h
    simp only [to_python]
    rw [if_neg (fun hh => hv hh.1)]
    show pyExceptWrap name v (TIME_to_python v) = _
    unfold TIME_to_python
    unfold timeMalformedB at h
    rcases hm : mapPyInt (splitOnChar ':' (timeStep1 v).1) with e | l
    · rcases mapPyInt_error _ _ hm with ⟨m, hmv⟩
      subst hmv
      unfold timeBody
      rw [hm]
      rfl
    · rw [hm] at h
      simp only [decide_eq_true_eq] at h
      unfold timeBody
      rw [hm]
      dsimp only
      rw [unpack3_of_length_ne l h]
      rfl

/-- Closed witness for the C7 theorem at the raw value `abcd` on a column
named `col`, with both a YEAR and a TIME field. -/
theorem time_year_conversion_error_witness :
    (("abcd").toList ≠ nullMarker) ∧ pyIntOkB (("abcd").toList) = false ∧
    to_python cfg0 ⟨("col").toList, FieldType.YEAR, 0⟩ (some (("abcd").toList))
      = .error (.valueError (yearErrMsg (("abcd").toList)
          ++ fieldSuffix (("col").toList))) ∧
    timeMalformedB (("abcd").toList) = true ∧
    to_python cfg0 ⟨("col").toList, FieldType.TIME, 0⟩ (some (("abcd").toList))
      = .error (.valueError (timeErrMsg (("abcd").toList)
          ++ fieldSuffix (("col").toList))) :=
  ⟨by decide, by decide,
   (time_year_conversion_error cfg0 (("col").toList) 0 (("abcd").toList)
     (by decide)).1 (by decide),
   by decide,
   (time_year_conversion_error cfg0 (("col").toList) 0 (("abcd").toList)
     (by decide)).2 (by decide)⟩

/-- The converter state `cfg0` with `use_unicode` switched off. -/
def cfgNoUni : Converter :=
  { charset := ("utf8").toList
    charsetId := 33
    useUnicode := false
    slashCharsets := []
    encode := fun s => s
    decode := fun s => .ok s }

/-- C10 counterexample: on a STRING column with all flags clear and
`use_unicode` off, the raw value consisting of the single byte 0x00 decodes
to null (the NULL-marker rule fires first), not to `str(value)`. -/
theorem string_decode_nullmarker_cex :
    to_python cfgNoUni ⟨("c").toList, FieldType.STRING, 0⟩ (some nullMarker)
        = .ok .none ∧
    (PyValue.none ≠ PyValue.str nullMarker) :=
  ⟨rfl, by decide⟩

/-- C10 amended: on a STRING/VAR_STRING or BLOB-family column whose SET and
BINARY bits are clear, for any raw value other than the single NUL byte,
`to_python` returns `str(value)` untouched (for every charset decoder) when
`use_unicode` is off, and returns the charset-decoded text (wrapped by the
error handlers) when `use_unicode` is on. -/
theorem string_decode_use_unicode (cfg : Converter) (name : List Char)
    (ty flags : Nat) (v : List Char)
    (hty : ty = FieldType.STRING ∨ ty = FieldType.VAR_STRING ∨ ty = FieldType.BLOB
      ∨ ty = FieldType.TINY_BLOB ∨ ty = FieldType.MEDIUM_BLOB ∨ ty = FieldType.LONG_BLOB)
    (hset : flags &&& FieldFlag.SET = 0) (hbin : flags &&& FieldFlag.BINARY = 0)
    (hv : v ≠ nullMarker) :
    (cfg.useUnicode = false →
      to_python cfg ⟨name, ty, flags⟩ (some v) = .ok (.str v)) ∧
    (cfg.useUnicode = true →
      to_python cfg ⟨name, ty, flags⟩ (some v)
        = pyExceptWrap name v (Except.map PyValue.unicode (cfg.decode v))) := by
  have hflags : STRING_to_python cfg v (some ⟨name, ty, flags⟩)
      = if cfg.useUnicode then Except.map PyValue.unicode (cfg.decode v)
        else .ok (.str v) := by
    unfold STRING_to_python
    dsimp only
    rw [if_neg (fun hh => hh hset), if_neg (fun hh => hh hbin)]
  have hblob : BLOB_to_python cfg v (some ⟨name, ty, flags⟩)
      = STRING_to_python cfg v (some ⟨name, ty, flags⟩) := by
    unfold BLOB_to_python
    dsimp only
    rw [if_neg (fun hh => hh hbin)]
  constructor
  · intro hu
    rcases hty with h | h | h | h | h | h <;> subst h <;>
    · simp only [to_python]
      rw [if_neg (fun hh => hv hh.1)]
      dsimp only [decoderFor]
      try rw [hblob]
      rw [hflags, hu]
      simp [pyExceptWrap]
  · intro hu
    rcases hty with h | h | h | h | h | h <;> subst h <;>
    · simp only [to_python]
      rw [if_neg (fun hh => hv hh.1)]
      dsimp only [decoderFor]
      try rw [hblob]
      rw [hflags, hu]
      simp

/-- Closed witness for the C10 theorem on a STRING column: raw-text
passthrough with `use_unicode` off, charset decode with it on. -/
theorem string_decode_use_unicode_witness :
    ((FieldType.STRING : Nat) = FieldType.STRING ∨ FieldType.STRING = FieldType.VAR_STRING
      ∨ FieldType.STRING = FieldType.BLOB ∨ FieldType.STRING = FieldType.TINY_BLOB
      ∨ FieldType.STRING = FieldType.MEDIUM_BLOB ∨ FieldType.STRING = FieldType.LONG_BLOB) ∧
    (0 &&& FieldFlag.SET = 0) ∧ (0 &&& FieldFlag.BINARY = 0) ∧
    (("ab").toList ≠ nullMarker) ∧
    cfgNoUni.useUnicode = false ∧
    to_python cfgNoUni ⟨("c").toList, FieldType.STRING, 0⟩ (some (("ab").toList))
      = .ok (.str (("ab").toList)) ∧
    cfg0.useUnicode = true ∧
    to_python cfg0 ⟨("c").toList, FieldType.STRING, 0⟩ (some (("ab").toList))
      = pyExceptWrap (("c").toList) (("ab").toList)
          (Except.map PyValue.unicode (cfg0.decode (("ab").toList))) :=
  ⟨Or.inl rfl, by decide, by decide, by decide, rfl,
   (string_decode_use_unicode cfgNoUni (("c").toList) FieldType.STRING 0
     (("ab").toList) (Or.inl rfl) (by decide) (by decide) (by decide)).1 rfl,
   rfl,
   (string_decode_use_unicode cfg0 (("c").toList) FieldType.STRING 0
     (("ab").toList) (Or.inl rfl) (by decide) (by decide) (by decide)).2 rfl⟩

/-! ## Lemmas about index and unpack reductions -/

theorem pyIndex_cons_zero {α : Type} (a : α) (t : List α) :
    pyIndex (a :: t) 0 = .ok a := by
  unfold pyIndex
  rw [dif_pos (by simp)]
  rfl

theorem pyIndex_cons_succ {α : Type} (a : α) (t : List α) (i : Nat) :
    pyIndex (a :: t) (i + 1) = pyIndex t i := by
  unfold pyIndex
  by_cases h : i < t.length
  · rw [dif_pos h, dif_pos (by simp only [List.length_cons]; omega)]
    rfl
  · rw [dif_neg h, dif_neg (by simp only [List.length_cons]; omega)]

theorem unpack2_of_length_ne {α : Type} (l : List α) (h : l.length ≠ 2) :
    unpack2 l = .error (.valueError (("unpacking requires two values").toList)) := by
  match l with
  | [] => rfl
  | [a] => rfl
  | [a, b] => simp at h
  | a :: b :: c :: t => rfl

theorem dateBody_result (p0 p1 p2 : List Char) (rest : List (List Char)) :
    (∃ m, dateBody (p0 :: p1 :: p2 :: rest) = .error (.valueError m)) ∨
    (∃ y m d, dateBody (p0 :: p1 :: p2 :: rest) = .ok (.date y m d)) := by
  unfold dateBody
  rw [pyIndex_cons_zero]
  dsimp only
  rcases pyInt_cases p0 with ⟨y, hy⟩ | ⟨m, hm⟩
  · rw [hy]
    dsimp only
    rw [pyIndex_cons_succ, pyIndex_cons_zero]
    dsimp only
    rcases pyInt_cases p1 with ⟨mo, hmo⟩ | ⟨m, hm⟩
    · rw [hmo]
      dsimp only
      rw [pyIndex_cons_succ, pyIndex_cons_succ, pyIndex_cons_zero]
      dsimp only
      rcases pyInt_cases p2 with ⟨d, hdd⟩ | ⟨m, hm⟩
      · rw [hdd]
        dsimp only
        unfold pyDate
        split
        · right
          exact ⟨_, _, _, rfl⟩
        · left
          exact ⟨_, rfl⟩
      · rw [hm]
        left
        exact ⟨_, rfl⟩
    · rw [hm]
      left
      exact ⟨_, rfl⟩
  · rw [hm]
    left
    exact ⟨_, rfl⟩

/-- C6 counterexample: decoding the malformed DATE raw value `2014` (too
few `-`-separated parts) raises an uncaught `IndexError` through
`to_python` instead of returning null. -/
theorem date_decoder_indexerror_cex :
    to_python cfg0 ⟨("c").toList, FieldType.DATE, 0⟩ (some (("2014").toList))
      = .error .indexError := by
  decide

/-- C6 amended: a DATE raw value with at least three `-`-separated parts
never raises (it decodes to null or to a date); a DATETIME raw value
without exactly one blank separator decodes to null on every
DATETIME/TIMESTAMP field, as do in-range-shaped values with invalid
calendar components; but a DATE raw value with fewer than three parts whose
leading parts parse as integers raises an uncaught `IndexError`. -/
theorem date_datetime_silent_null :
    (∀ (cfg : Converter) (name : List Char) (ty flags : Nat) (v : List Char),
      (ty = FieldType.DATE ∨ ty = FieldType.NEWDATE) →
      3 ≤ (splitOnChar '-' v).length →
      to_python cfg ⟨name, ty, flags⟩ (some v) = .ok .none ∨
        ∃ y m d, to_python cfg ⟨name, ty, flags⟩ (some v) = .ok (.date y m d)) ∧
    (∀ (cfg : Converter) (name : List Char) (ty flags : Nat) (v : List Char),
      (ty = FieldType.DATETIME ∨ ty = FieldType.TIMESTAMP) →
      (splitOnChar ' ' v).length ≠ 2 →
      to_python cfg ⟨name, ty, flags⟩ (some v) = .ok .none) ∧
    DATETIME_to_python (("2014-02-30 10:00:00").toList) = .ok .none ∧
    DATE_to_python (("2014").toList) = .error .indexError := by
  refine ⟨?_, ?_, by decide, by decide⟩
  · intro cfg name ty flags v hty h
    have hv : v ≠ nullMarker := by
      intro he
      subst he
      rw [show splitOnChar '-' nullMarker = [nullMarker] from rfl] at h
      simp at h
    have key : DATE_to_python v = .ok .none ∨
        ∃ y m d, DATE_to_python v = .ok (.date y m d) := by
      rcases hP : splitOnChar '-' v with _ | ⟨p0, _ | ⟨p1, _ | ⟨p2, rest⟩⟩⟩ <;>
        rw [hP] at h <;> try simp at h
      unfold DATE_to_python
      rw [hP]
      rcases dateBody_result p0 p1 p2 rest with ⟨m, hm⟩ | ⟨y, mo, d, hd2⟩
      · left
        rw [hm]
        rfl
      · right
        exact ⟨y, mo, d, by rw [hd2]; rfl⟩
    rcases hty with h1 | h1 <;> subst h1 <;>
    · simp only [to_python]
      rw [if_neg (fun hh => hv hh.1)]
      rcases key with hk | ⟨y, mo, d, hk⟩
      · left
        show pyExceptWrap name v (DATE_to_python v) = _
        rw [hk]
        rfl
      · right
        refine ⟨y, mo, d, ?_⟩
        show pyExceptWrap name v (DATE_to_python v) = _
        rw [hk]
        rfl
  · intro cfg name ty flags v hty h
    by_cases hv : v = nullMarker
    · subst hv
      rcases hty with h1 | h1 <;> subst h1 <;>
      · simp only [to_python]
        rw [if_pos ⟨trivial, by decide⟩]
    · have key : DATETIME_to_python v = .ok .none := by
        unfold DATETIME_to_python datetimeBody
        rw [unpack2_of_length_ne _ h]
        rfl
      rcases hty with h1 | h1 <;> subst h1 <;>
      · simp only [to_python]
        rw [if_neg (fun hh => hv hh.1)]
        show pyExceptWrap name v (DATETIME_to_python v) = _
        rw [key]
        rfl

/-- Closed witness for the C6 theorem at `a-b-c` (DATE) and `nodate`
(DATETIME). -/
theorem date_datetime_silent_null_witness :
    (3 ≤ (splitOnChar '-' (("a-b-c").toList)).length) ∧
    (to_python cfg0 ⟨("c").toList, FieldType.DATE, 0⟩ (some (("a-b-c").toList))
        = .ok .none ∨
      ∃ y m d, to_python cfg0 ⟨("c").toList, FieldType.DATE, 0⟩
        (some (("a-b-c").toList)) = .ok (.date y m d)) ∧
    ((splitOnChar ' ' (("nodate").toList)).length ≠ 2) ∧
    to_python cfg0 ⟨("c").toList, FieldType.DATETIME, 0⟩ (some (("nodate").toList))
      = .ok .none :=
  ⟨by decide,
   date_datetime_silent_null.1 cfg0 (("c").toList) FieldType.DATE 0
     (("a-b-c").toList) (Or.inl rfl) (by decide),
   by decide,
   date_datetime_silent_null.2.1 cfg0 (("c").toList) FieldType.DATETIME 0
     (("nodate").toList) (Or.inl rfl) (by decide)⟩

/-! ## Round-trip lemmas for the date/time encoders and decoders -/

theorem digits_ne_char (l : List Char) (hl : ∀ c ∈ l, isDigitCh c = true)
    (d : Char) (hd : isDigitCh d = false) : ∀ c ∈ l, c ≠ d :=
  fun c hc => digit_ne_of_not_digit c d (hl c hc) hd

theorem pad2_all_digit (n : Nat) : ∀ c ∈ pad2 n, isDigitCh c = true :=
  padLeftZeros_all_digit 2 _ (natToDigits_all_digit n)

theorem pad6_all_digit (n : Nat) : ∀ c ∈ pad6 n, isDigitCh c = true :=
  padLeftZeros_all_digit 6 _ (natToDigits_all_digit n)

theorem pad2_ne_nil (n : Nat) : pad2 n ≠ [] := by
  unfold pad2 padLeftZeros
  intro hx
  exact natToDigits_ne_nil n (List.append_eq_nil.mp hx).2

theorem splitOnChar_dateToMysql (y m d : Nat) :
    splitOnChar '-' (dateToMysql y m d) = [natToDigits y, pad2 m, pad2 d] := by
  unfold dateToMysql
  simp only [List.cons_append, List.append_assoc]
  rw [splitOnChar_append '-' _ (natToDigits y)
      (digits_ne_char _ (natToDigits_all_digit y) '-' (by decide)),
    splitOnChar_append '-' _ (pad2 m)
      (digits_ne_char _ (pad2_all_digit m) '-' (by decide)),
    splitOnChar_no_sep '-' (pad2 d)
      (digits_ne_char _ (pad2_all_digit d) '-' (by decide))]

theorem splitOnChar_hms (h mi s : Nat) :
    splitOnChar ':' (pad2 h ++ ':' :: pad2 mi ++ ':' :: pad2 s)
      = [pad2 h, pad2 mi, pad2 s] := by
  simp only [List.cons_append, List.append_assoc]
  rw [splitOnChar_append ':' _ (pad2 h)
      (digits_ne_char _ (pad2_all_digit h) ':' (by decide)),
    splitOnChar_append ':' _ (pad2 mi)
      (digits_ne_char _ (pad2_all_digit mi) ':' (by decide)),
    splitOnChar_no_sep ':' (pad2 s)
      (digits_ne_char _ (pad2_all_digit s) ':' (by decide))]

theorem mapPyInt_three (a b c : List Char) (x y z : Int)
    (ha : pyInt a = .ok x) (hb : pyInt b = .ok y) (hc : pyInt c = .ok z) :
    mapPyInt [a, b, c] = .ok [x, y, z] := by
  simp [mapPyInt, ha, hb, hc]

/-- In-range condition of `datetime.date` for natural components. -/
def validDate (y m d : Nat) : Prop :=
  1 ≤ y ∧ y ≤ 9999 ∧ 1 ≤ m ∧ m ≤ 12 ∧ 1 ≤ d ∧
    (d : Int) ≤ pyDaysInMonth (y : Int) (m : Int)

instance (y m d : Nat) : Decidable (validDate y m d) := by
  unfold validDate
  infer_instance

/-- In-range condition of `datetime.time` components. -/
def validTime (h mi s mcs : Nat) : Prop :=
  h ≤ 23 ∧ mi ≤ 59 ∧ s ≤ 59 ∧ mcs ≤ 999999

instance (h mi s mcs : Nat) : Decidable (validTime h mi s mcs) := by
  unfold validTime
  infer_instance

theorem pyDate_of_valid (y m d : Nat) (h : validDate y m d) :
    pyDate (y : Int) (m : Int) (d : Int) = .ok (.date y m d) := by
  obtain ⟨h1, h2, h3, h4, h5, h6⟩ := h
  unfold pyDate
  rw [if_pos ⟨by exact_mod_cast h1, by exact_mod_cast h2, by exact_mod_cast h3,
    by exact_mod_cast h4, by exact_mod_cast h5, h6⟩]
  simp

theorem DATE_decode_encode (y m d : Nat) (h : validDate y m d) :
    DATE_to_python (dateToMysql y m d) = .ok (.date y m d) := by
  unfold DATE_to_python
  rw [splitOnChar_dateToMysql]
  unfold dateBody
  rw [pyIndex_cons_zero]
  dsimp only
  rw [pyInt_natToDigits]
  dsimp only
  rw [pyIndex_cons_succ, pyIndex_cons_zero]
  dsimp only
  rw [pyInt_pad2]
  dsimp only
  rw [pyIndex_cons_succ, pyIndex_cons_succ, pyIndex_cons_zero]
  dsimp only
  rw [pyInt_pad2]
  dsimp only
  rw [pyDate_of_valid y m d h]
  rfl

theorem hms_all_digit_colon (h mi s : Nat) :
    ∀ c ∈ pad2 h ++ ':' :: pad2 mi ++ ':' :: pad2 s,
      isDigitCh c = true ∨ c = ':' := by
  intro c hc
  simp only [List.cons_append, List.append_assoc, List.mem_append,
    List.mem_cons] at hc
  rcases hc with hx | hx | hx | hx | hx
  · exact .inl (pad2_all_digit h c hx)
  · exact .inr hx
  · exact .inl (pad2_all_digit mi c hx)
  · exact .inr hx
  · exact .inl (pad2_all_digit s c hx)

theorem hms_ne_char (h mi s : Nat) (d : Char) (hdig : isDigitCh d = false)
    (hcol : d ≠ ':') : ∀ c ∈ pad2 h ++ ':' :: pad2 mi ++ ':' :: pad2 s, c ≠ d := by
  intro c hc
  rcases hms_all_digit_colon h mi s c hc with hx | hx
  · exact digit_ne_of_not_digit c d hx hdig
  · rw [hx]
    exact fun he => hcol he.symm

theorem timeToMysql_nofrac (h mi s : Nat) :
    timeToMysql h mi s 0 = pad2 h ++ ':' :: pad2 mi ++ ':' :: pad2 s := by
  unfold timeToMysql
  rw [if_neg (by simp)]

theorem timeToMysql_frac (h mi s mcs : Nat) (hne : mcs ≠ 0) :
    timeToMysql h mi s mcs
      = (pad2 h ++ ':' :: pad2 mi ++ ':' :: pad2 s) ++ '.' :: pad6 mcs := by
  unfold timeToMysql
  rw [if_pos hne]

theorem ljust_len6 (l : List Char) (hl : l.length = 6) : ljust l 6 '0' = l := by
  unfold ljust
  rw [hl]
  simp

theorem timeStep1_nofrac (h mi s : Nat) :
    timeStep1 (timeToMysql h mi s 0) = (timeToMysql h mi s 0, 0) := by
  unfold timeStep1
  rw [timeToMysql_nofrac,
    splitOnChar_no_sep '.' _ (hms_ne_char h mi s '.' (by decide) (by decide))]
  rfl

theorem timeStep1_frac (h mi s mcs : Nat) (hmc : mcs < 1000000) (hne : mcs ≠ 0) :
    timeStep1 (timeToMysql h mi s mcs)
      = (pad2 h ++ ':' :: pad2 mi ++ ':' :: pad2 s, (mcs : Int)) := by
  unfold timeStep1
  rw [timeToMysql_frac h mi s mcs hne,
    splitOnChar_append '.' _ _ (hms_ne_char h mi s '.' (by decide) (by decide)),
    splitOnChar_no_sep '.' (pad6 mcs)
      (digits_ne_char _ (pad6_all_digit mcs) '.' (by decide))]
  dsimp only [unpack2]
  rw [ljust_len6 _ (pad6_length mcs hmc), pyInt_pad6]

theorem mkTimedelta_small (h mi s mcs : Nat)
    (hlt : h * 3600 + mi * 60 + s < 86400) (hmc : mcs < 1000000) :
    mkTimedelta (h : Int) (mi : Int) (s : Int) (mcs : Int)
      = .timedelta 0 (h * 3600 + mi * 60 + s) mcs := by
  unfold mkTimedelta
  rw [Int.fdiv_eq_ediv _ (by norm_num), Int.fmod_eq_emod _ (by norm_num),
    Int.fdiv_eq_ediv _ (by norm_num), Int.fmod_eq_emod _ (by norm_num)]
  simp only [PyValue.timedelta.injEq]
  omega

theorem exists_head_digit (l : List Char) (hne : l ≠ [])
    (hd : ∀ c ∈ l, isDigitCh c = true) :
    ∃ c t, l = c :: t ∧ isDigitCh c = true := by
  cases l with
  | nil => exact absurd rfl hne
  | cons c t => exact ⟨c, t, rfl, hd c (by simp)⟩

theorem timeBody_digits (v hms : List Char) (c0 : Char) (t : List Char)
    (hv : v = c0 :: t) (hc0 : isDigitCh c0 = true) (h mi s : Nat)
    (hsplit : splitOnChar ':' hms = [pad2 h, pad2 mi, pad2 s]) (mcs : Int) :
    timeBody v hms mcs = .ok (mkTimedelta (h : Int) (mi : Int) (s : Int) mcs) := by
  unfold timeBody
  rw [hsplit,
    mapPyInt_three _ _ _ _ _ _ (pyInt_pad2 h) (pyInt_pad2 mi) (pyInt_pad2 s)]
  dsimp only [unpack3]
  rw [hv, pyIndex_cons_zero]
  dsimp only
  rw [if_neg (digit_ne_of_not_digit c0 '-' hc0 (by decide))]

theorem TIME_decode_encode (h mi s mcs : Nat) (ht : validTime h mi s mcs) :
    TIME_to_python (timeToMysql h mi s mcs)
      = .ok (.timedelta 0 (h * 3600 + mi * 60 + s) mcs) := by
  obtain ⟨c0, t0, hct, hc0⟩ :=
    exists_head_digit (pad2 h) (pad2_ne_nil h) (pad2_all_digit h)
  obtain ⟨h1, h2, h3, h4⟩ := ht
  unfold TIME_to_python
  by_cases hne : mcs = 0
  · subst hne
    rw [timeStep1_nofrac h mi s]
    rw [timeBody_digits _ _ c0 (t0 ++ ':' :: pad2 mi ++ ':' :: pad2 s)
      (by rw [timeToMysql_nofrac, hct]; simp [List.cons_append, List.append_assoc])
      hc0 h mi s (by rw [timeToMysql_nofrac]; exact splitOnChar_hms h mi s) 0]
    rw [show ((0 : Int)) = ((0 : Nat) : Int) from rfl]
    rw [mkTimedelta_small h mi s 0 (by omega) (by omega)]
    rfl
  · rw [timeStep1_frac h mi s mcs (by omega) hne]
    rw [timeBody_digits _ _ c0
      (t0 ++ ':' :: pad2 mi ++ ':' :: pad2 s ++ '.' :: pad6 mcs)
      (by rw [timeToMysql_frac h mi s mcs hne, hct]
          simp [List.cons_append, List.append_assoc])
      hc0 h mi s (splitOnChar_hms h mi s) (mcs : Int)]
    rw [mkTimedelta_small h mi s mcs (by omega) (by omega)]
    rfl

theorem dateToMysql_all_digit_dash (y m d : Nat) :
    ∀ c ∈ dateToMysql y m d, isDigitCh c = true ∨ c = '-' := by
  intro c hc
  unfold dateToMysql at hc
  simp only [List.cons_append, List.append_assoc, List.mem_append,
    List.mem_cons] at hc
  rcases hc with hx | hx | hx | hx | hx
  · exact .inl (natToDigits_all_digit y c hx)
  · exact .inr hx
  · exact .inl (pad2_all_digit m c hx)
  · exact .inr hx
  · exact .inl (pad2_all_digit d c hx)

theorem dateToMysql_no_space (y m d : Nat) :
    ∀ c ∈ dateToMysql y m d, c ≠ ' ' := by
  intro c hc
  rcases dateToMysql_all_digit_dash y m d c hc with hx | hx
  · exact digit_ne_of_not_digit c ' ' hx (by decide)
  · rw [hx]
    decide

theorem timeToMysql_no_space (h mi s mcs : Nat) :
    ∀ c ∈ timeToMysql h mi s mcs, c ≠ ' ' := by
  intro c hc
  by_cases hne : mcs = 0
  · subst hne
    rw [timeToMysql_nofrac] at hc
    exact hms_ne_char h mi s ' ' (by decide) (by decide) c hc
  · rw [timeToMysql_frac h mi s mcs hne, List.mem_append] at hc
    rcases hc with hx | hx
    · exact hms_ne_char h mi s ' ' (by decide) (by decide) c hx
    · rw [List.mem_cons] at hx
      rcases hx with hx | hx
      · rw [hx]
        decide
      · exact digit_ne_of_not_digit c ' ' (pad6_all_digit mcs c hx) (by decide)

theorem splitOnChar_datetimeToMysql (y mo d h mi s mcs : Nat) :
    splitOnChar ' ' (datetimeToMysql y mo d h mi s mcs)
      = [dateToMysql y mo d, timeToMysql h mi s mcs] := by
  unfold datetimeToMysql
  rw [splitOnChar_append ' ' _ (dateToMysql y mo d) (dateToMysql_no_space y mo d),
    splitOnChar_no_sep ' ' _ (timeToMysql_no_space h mi s mcs)]

theorem timeToMysql_length_nofrac (h mi s : Nat) (hh : h < 100)
    (hm2 : mi < 100) (hs : s < 100) : (timeToMysql h mi s 0).length = 8 := by
  rw [timeToMysql_nofrac]
  simp [pad2_length, hh, hm2, hs]

theorem timeToMysql_length_frac (h mi s mcs : Nat) (hh : h < 100)
    (hm2 : mi < 100) (hs : s < 100) (hmc : mcs < 1000000) (hne : mcs ≠ 0) :
    (timeToMysql h mi s mcs).length = 15 := by
  rw [timeToMysql_frac h mi s mcs hne]
  simp [pad2_length, pad6_length, hh, hm2, hs, hmc]

theorem pyDatetime_of_valid (y mo d h mi s mcs : Nat)
    (hd : validDate y mo d) (ht : validTime h mi s mcs) :
    pyDatetime (y : Int) (mo : Int) (d : Int) (h : Int) (mi : Int) (s : Int)
        (mcs : Int) = .ok (.datetime y mo d h mi s mcs) := by
  obtain ⟨t1, t2, t3, t4⟩ := ht
  unfold pyDatetime
  rw [pyDate_of_valid y mo d hd]
  dsimp only
  rw [if_pos ⟨by positivity, by exact_mod_cast t1, by positivity,
    by exact_mod_cast t2, by positivity, by exact_mod_cast t3,
    by positivity, by exact_mod_cast t4⟩]
  simp

theorem DATETIME_decode_encode (y mo d h mi s mcs : Nat)
    (hd : validDate y mo d) (ht : validTime h mi s mcs) :
    DATETIME_to_python (datetimeToMysql y mo d h mi s mcs)
      = .ok (.datetime y mo d h mi s mcs) := by
  obtain ⟨t1, t2, t3, t4⟩ := ht
  unfold DATETIME_to_python datetimeBody
  rw [splitOnChar_datetimeToMysql y mo d h mi s mcs]
  dsimp only [unpack2]
  by_cases hne : mcs = 0
  · subst hne
    rw [timeToMysql_length_nofrac h mi s (by omega) (by omega) (by omega)]
    rw [if_neg (by omega)]
    dsimp only
    rw [splitOnChar_dateToMysql y mo d,
      mapPyInt_three _ _ _ _ _ _ (pyInt_natToDigits y) (pyInt_pad2 mo)
        (pyInt_pad2 d)]
    dsimp only
    rw [timeToMysql_nofrac, splitOnChar_hms h mi s,
      mapPyInt_three _ _ _ _ _ _ (pyInt_pad2 h) (pyInt_pad2 mi) (pyInt_pad2 s)]
    dsimp only [List.cons_append, List.nil_append, pyDatetimeStar]
    rw [show ((0 : Int)) = (((0 : Nat)) : Int) from rfl,
      pyDatetime_of_valid y mo d h mi s 0 hd ⟨t1, t2, t3, by omega⟩]
    rfl
  · rw [timeToMysql_length_frac h mi s mcs (by omega) (by omega) (by omega)
      (by omega) hne]
    rw [if_pos (by omega)]
    rw [timeToMysql_frac h mi s mcs hne,
      splitOnChar_append '.' _ _ (hms_ne_char h mi s '.' (by decide) (by decide)),
      splitOnChar_no_sep '.' (pad6 mcs)
        (digits_ne_char _ (pad6_all_digit mcs) '.' (by decide))]
    dsimp only [unpack2]
    rw [ljust_len6 _ (pad6_length mcs (by omega)), pyInt_pad6]
    dsimp only
    rw [splitOnChar_dateToMysql y mo d,
      mapPyInt_three _ _ _ _ _ _ (pyInt_natToDigits y) (pyInt_pad2 mo)
        (pyInt_pad2 d)]
    dsimp only
    rw [splitOnChar_hms h mi s,
      mapPyInt_three _ _ _ _ _ _ (pyInt_pad2 h) (pyInt_pad2 mi) (pyInt_pad2 s)]
    dsimp only [List.cons_append, List.nil_append, pyDatetimeStar]
    rw [pyDatetime_of_valid y mo d h mi s mcs hd ⟨t1, t2, t3, t4⟩]
    rfl

theorem dateToMysql_ne_nullMarker (y m d : Nat) : dateToMysql y m d ≠ nullMarker := by
  intro he
  have h1 := congrArg List.length he
  unfold dateToMysql nullMarker at h1
  simp only [List.length_append, List.length_cons, List.length_singleton, List.length_nil] at h1
  have g1 : 0 < (natToDigits y).length := List.length_pos.mpr (natToDigits_ne_nil y)
  have g2 : 0 < (pad2 m).length := List.length_pos.mpr (pad2_ne_nil m)
  have g3 : 0 < (pad2 d).length := List.length_pos.mpr (pad2_ne_nil d)
  omega

theorem timeToMysql_ne_nullMarker (h mi s mcs : Nat) :
    timeToMysql h mi s mcs ≠ nullMarker := by
  intro he
  have h1 := congrArg List.length he
  have g1 : 0 < (pad2 h).length := List.length_pos.mpr (pad2_ne_nil h)
  have g2 : 0 < (pad2 mi).length := List.length_pos.mpr (pad2_ne_nil mi)
  have g3 : 0 < (pad2 s).length := List.length_pos.mpr (pad2_ne_nil s)
  by_cases hne : mcs = 0
  · subst hne
    rw [timeToMysql_nofrac] at h1
    unfold nullMarker at h1
    simp only [List.length_append, List.length_cons, List.length_singleton, List.length_nil] at h1
    omega
  · rw [timeToMysql_frac h mi s mcs hne] at h1
    unfold nullMarker at h1
    simp only [List.length_append, List.length_cons, List.length_singleton, List.length_nil] at h1
    omega

theorem datetimeToMysql_ne_nullMarker (y mo d h mi s mcs : Nat) :
    datetimeToMysql y mo d h mi s mcs ≠ nullMarker := by
  intro he
  have h1 := congrArg List.length he
  unfold datetimeToMysql dateToMysql nullMarker at h1
  simp only [List.length_append, List.length_cons, List.length_singleton, List.length_nil] at h1
  have g1 : 0 < (natToDigits y).length := List.length_pos.mpr (natToDigits_ne_nil y)
  omega

/-- C5 counterexample: a time-of-day value does not survive the round
trip — the TIME decoder produces a duration, which is a different variant
than the encoded time-of-day, so the decoded value is not equal to it. -/
theorem time_roundtrip_variant_cex :
    to_python cfg0 ⟨("c").toList, FieldType.TIME, 0⟩ (some (timeToMysql 0 0 1 0))
      ≠ .ok (.time 0 0 1 0) := by
  decide

/-- C5 amended: for in-range dates and date-times the decode of the encode
under the matching field descriptor returns the value itself; for an
in-range time-of-day the decode returns the duration whose components
match the encoded clock reading (`timedelta`, not a time-of-day value). -/
theorem date_datetime_time_roundtrip :
    (∀ (cfg : Converter) (name : List Char) (flags y m d : Nat),
      validDate y m d →
      to_python cfg ⟨name, FieldType.DATE, flags⟩ (some (dateToMysql y m d))
        = .ok (.date y m d)) ∧
    (∀ (cfg : Converter) (name : List Char) (flags y mo d h mi s mcs : Nat),
      validDate y mo d → validTime h mi s mcs →
      to_python cfg ⟨name, FieldType.DATETIME, flags⟩
          (some (datetimeToMysql y mo d h mi s mcs))
        = .ok (.datetime y mo d h mi s mcs)) ∧
    (∀ (cfg : Converter) (name : List Char) (flags h mi s mcs : Nat),
      validTime h mi s mcs →
      to_python cfg ⟨name, FieldType.TIME, flags⟩ (some (timeToMysql h mi s mcs))
        = .ok (.timedelta 0 (h * 3600 + mi * 60 + s) mcs)) := by
  refine ⟨?_, ?_, ?_⟩
  · intro cfg name flags y m d hv
    simp only [to_python]
    rw [if_neg (fun hh => dateToMysql_ne_nullMarker y m d hh.1)]
    show pyExceptWrap name _ (DATE_to_python (dateToMysql y m d)) = _
    rw [DATE_decode_encode y m d hv]
    rfl
  · intro cfg name flags y mo d h mi s mcs hv ht
    simp only [to_python]
    rw [if_neg (fun hh => datetimeToMysql_ne_nullMarker y mo d h mi s mcs hh.1)]
    show pyExceptWrap name _
      (DATETIME_to_python (datetimeToMysql y mo d h mi s mcs)) = _
    rw [DATETIME_decode_encode y mo d h mi s mcs hv ht]
    rfl
  · intro cfg name flags h mi s mcs ht
    simp only [to_python]
    rw [if_neg (fun hh => timeToMysql_ne_nullMarker h mi s mcs hh.1)]
    show pyExceptWrap name _ (TIME_to_python (timeToMysql h mi s mcs)) = _
    rw [TIME_decode_encode h mi s mcs ht]
    rfl

/-- Closed witness for the C5 theorem at the leap date 2004-02-29, the
date-time 2014-01-02 03:04:05.000123 and the time 23:59:59.999999. -/
theorem date_datetime_time_roundtrip_witness :
    validDate 2004 2 29 ∧
    to_python cfg0 ⟨("c").toList, FieldType.DATE, 0⟩
      (some (dateToMysql 2004 2 29)) = .ok (.date 2004 2 29) ∧
    validTime 3 4 5 123 ∧
    to_python cfg0 ⟨("c").toList, FieldType.DATETIME, 0⟩
      (some (datetimeToMysql 2014 1 2 3 4 5 123)) = .ok (.datetime 2014 1 2 3 4 5 123) ∧
    validTime 23 59 59 999999 ∧
    to_python cfg0 ⟨("c").toList, FieldType.TIME, 0⟩
      (some (timeToMysql 23 59 59 999999))
      = .ok (.timedelta 0 (23 * 3600 + 59 * 60 + 59) 999999) :=
  ⟨by decide,
   date_datetime_time_roundtrip.1 cfg0 (("c").toList) 0 2004 2 29 (by decide),
   by decide,
   date_datetime_time_roundtrip.2.1 cfg0 (("c").toList) 0 2014 1 2 3 4 5 123
     (by decide) (by decide),
   by decide,
   date_datetime_time_roundtrip.2.2 cfg0 (("c").toList) 0 23 59 59 999999
     (by decide)⟩
